import Mathlib

/-!
# gotili: file lookup helpers (file.go) and the HTTP front end (main.go)

A shallow embedding of `file.go` and of the request handlers, `updateFiles`
and `getURLBase` of `main.go`, with the properties of the specification stated
over it.

Conventions of the embedding:

* a Go `string` and a Go `[]byte` are both a sequence of bytes (`GoString`);
  the conversion `string(b)` is the identity on it and `len` is `List.length`;
* the operating system and the Go standard library are an explicit
  environment (`Env` for the file system, `Io` for the JSON codec and the
  connection);
* the secret store (`secretStore`) and the token database (`TokenDB`) are
  implemented in other files of the package; the handlers take their methods
  as parameters (`StoreOps`, `AuthOps`), and a store and a token authority
  written after the specification are used where a concrete one is needed.
-/

namespace Gotili

/-! ## Go values -/

/-- A Go `string` or `[]byte`: a finite sequence of bytes. -/
abbrev GoString := List UInt8

/-- The bytes of a string literal (Go source text is UTF-8). -/
def str (s : String) : GoString := s.toUTF8.data.toList

/-! ## file.go -/

/-- What a path name denotes in a given file-system state. -/
inductive Node where
  /-- Nothing that opens: `os.Open` fails (no such file, no permission, ...). -/
  | absent
  /-- Something that opens but does not read: `os.Open` succeeds, reading fails (a directory, for instance). -/
  | unreadable
  /-- A file that opens and reads, with its contents. -/
  | file (contents : GoString)
deriving DecidableEq, Repr

/-- The environment `file.go` runs in: the result of `os.Getwd`, the package
variable `configDir`, the function `path.Join` (on two elements) and the state
of the file system. -/
structure Env where
  /-- The result of `os.Getwd()`: `none` when it returns an error. -/
  getwd : Option GoString
  /-- The package variable `configDir`. -/
  configDir : GoString
  /-- The function `path.Join(dir, fn)`. -/
  join : GoString → GoString → GoString
  /-- The file system. -/
  fs : GoString → Node

/-- Whether `os.Open(pn)` returned no error. The empty path never opens (ENOENT). -/
def osOpen (env : Env) (pn : GoString) : Bool :=
  if pn = [] then false
  else
    match env.fs pn with
    | Node.absent => false
    | _ => true

/-- The call `os.ReadFile(pn)`: the contents, or `none` for an error. -/
def osReadFile (env : Env) (pn : GoString) : Option GoString :=
  if pn = [] then none
  else
    match env.fs pn with
    | Node.file c => some c
    | _ => none

/-- The slice `dirs` that `tryFile` builds before its loop. -/
def tryFileDirs (env : Env) : List GoString :=
  let dirs : List GoString := []
  let dirs :=
    match env.getwd with
    | some cwd => dirs ++ [cwd]
    | none => dirs
  dirs ++ [env.configDir]

/-- The `for _, dir := range dirs` loop of `tryFile`, with the final
`return ""` when the loop runs out. -/
def tryFileLoop (env : Env) (fn : GoString) : List GoString → GoString
  | [] => []
  | dir :: rest =>
    let pn := env.join dir fn
    if osOpen env pn then pn else tryFileLoop env fn rest

/-- The function `tryFile(fn)` (logging left out: it does not influence the result). -/
def tryFile (env : Env) (fn : GoString) : GoString :=
  tryFileLoop env fn (tryFileDirs env)

/-- The function `tryReadFile(fn)`. -/
def tryReadFile (env : Env) (fn : GoString) : GoString :=
  let pn := tryFile env fn
  match osReadFile env pn with
  | some contents => contents
  | none => []

/-- The function `fileOrConst(fn, def)`. -/
def fileOrConst (env : Env) (fn : GoString) (dflt : GoString) : GoString :=
  let pn := tryReadFile env fn
  if pn.length > 0 then pn else dflt

/-- Joining two clean, non-empty elements with a slash, which is what
`path.Join` does on such elements; used for the concrete environments. -/
def slashJoin (dir fn : GoString) : GoString := dir ++ str "/" ++ fn

/-- The situation at the end of `TestTryReadFile`: `gotili_testfile` exists in
the working directory (contents "testPwd") and in `configDir` (contents
"test"); `onlyconf` exists in `configDir` only; `sub` is a directory of the
working directory; `empty.txt` is an empty file in `configDir`. -/
def testEnv : Env where
  getwd := some (str "/work")
  configDir := str "/tmp/gotili_test"
  join := slashJoin
  fs := fun p =>
    if p = str "/work/gotili_testfile" then Node.file (str "testPwd")
    else if p = str "/tmp/gotili_test/gotili_testfile" then Node.file (str "test")
    else if p = str "/tmp/gotili_test/onlyconf" then Node.file (str "conf")
    else if p = str "/work/sub" then Node.unreadable
    else if p = str "/tmp/gotili_test/empty.txt" then Node.file []
    else Node.absent

/-! ## main.go: constants, package variables, getURLBase -/

def defaultHostname : GoString := str "localhost"
def listenDefault : GoString := str ":9154"
def uApiGet : GoString := str "/api/v1/get/"
def uApiNew : GoString := str "/api/v1/new"
def uApiCreate : GoString := str "/create"
def uGet : GoString := str "/g"
def uInfo : GoString := str "/i"
/-- The constant `maxData`, 1MB. -/
def maxData : Nat := 1048576

/-- The package variables set from the command line, and `scheme`. -/
structure Flags where
  fListen : GoString
  fURLBase : GoString
  fTLS : Bool
  fNotify : Bool
  fAllowAnonymous : Bool
  scheme : GoString

/-- The values of the package variables before `main` changes them: the flag
defaults and `scheme = "http://"`. -/
def defaultFlags : Flags where
  fListen := listenDefault
  fURLBase := []
  fTLS := false
  fNotify := false
  fAllowAnonymous := false
  scheme := str "http://"

/-- The function `strings.Split(s, sep)` for a separator of one byte: the pieces of `s`
between the occurrences of the separator, always at least one piece. -/
def stringsSplit (s : GoString) (sep : UInt8) : List GoString := s.splitOn sep

/-- The index expression `l[i]` of Go: `none` stands for the run-time panic
"index out of range". -/
def goIndex {α : Type} (l : List α) (i : Int) : Option α :=
  if 0 ≤ i ∧ i < (l.length : Int) then l[i.toNat]? else none

/-- The function `getURLBase()`; `none` stands for a panic of the index expression. -/
def getURLBase (g : Flags) : Option GoString :=
  if g.fURLBase ≠ [] then some g.fURLBase
  else
    let sl := stringsSplit g.fListen ':'.toUInt8
    match goIndex sl ((sl.length : Int) - 1) with
    | none => none
    | some port => some (g.scheme ++ defaultHostname ++ str ":" ++ port)

/-- What the specification says `getURLBase` uses of the listen address: the
part after its last colon, all of it when it has no colon. -/
def afterLastColon (s : GoString) : GoString :=
  (s.reverse.takeWhile (fun b => b != ':'.toUInt8)).reverse

/-! ## main.go: the handlers

A handler is a computation over the state it can change: the store, the
sequence of calls it made on the store, the sequence of calls it made on the
`http.ResponseWriter`, and the log. -/

/-- The part of an `*http.Request` the handlers read. -/
structure Request where
  /-- The field `r.URL.Path`. -/
  urlPath : GoString
  /-- The value `r.URL.Query().Get("id")`. -/
  queryId : GoString
  /-- The bytes the stream `r.Body` delivers. -/
  bodyData : GoString
  /-- The error that ends the stream `r.Body`, `none` for a regular end. -/
  bodyErr : Option GoString
  /-- The error of `r.Body.Close()`, if any. -/
  closeErr : Option GoString
  /-- The outcome of `r.ParseForm()`: the error, or `r.Form.Get`. -/
  form : Except GoString (GoString → GoString)

/-- The methods of `secretStore` that `main.go` calls, as functions from the
store before the call to the result and the store after it. `σ` is the store,
`E` the type `StoreEntry`, `I` the type `StoreEntryInfo`. -/
structure StoreOps (σ E I : Type) where
  NewEntry : σ → GoString → Int → Int → GoString → GoString → GoString × σ
  AddEntry : σ → E → GoString → GoString × σ
  GetEntryInfo : σ → GoString → (I × Bool) × σ
  GetEntryInfoHidden : σ → GoString → (I × Bool) × σ
  Click : σ → GoString → Request → σ

/-- The functions of `TokenDB` that `main.go` calls; `A` is the type `TokenDB`,
which has a nil value. `isAuthorized` receives a pointer to the entry, so it
returns the entry as it leaves it. -/
structure AuthOps (A E : Type) where
  makeTokenDB : GoString → A
  isNil : A → Bool
  isAuthorized : A → E → Bool × E

/-- The standard-library behaviour the handlers depend on. -/
structure Io (E : Type) where
  /-- The call `json.Unmarshal(body, &entry)` on a zero `entry`. -/
  jsonUnmarshal : GoString → Except GoString E
  /-- The error of `json.NewEncoder(w).Encode(v)`, which for the values encoded
  here is an error of writing to the connection; `none` when it succeeds. -/
  encodeErr : Option GoString

/-- A call on the store. -/
inductive StoreCall (E : Type) where
  | newEntry (secret : GoString) (a2 a3 : Int) (a4 a5 : GoString)
  | addEntry (e : E) (id : GoString)
  | getEntryInfo (id : GoString)
  | getEntryInfoHidden (id : GoString)
  | click (id : GoString)

/-- The data a template is executed with. -/
inductive TemplateData (I : Type) where
  | null
  | info (entry : I)
  | view (entry : I) (userMessageView : GoString)

/-- A call on the `http.ResponseWriter`. -/
inductive RespOp (I : Type) where
  | setHeader (key value : GoString)
  | writeHeader (code : Nat)
  /-- The call `json.NewEncoder(w).Encode(jsonError{msg})`. -/
  | encodeError (msg : GoString)
  /-- The call `json.NewEncoder(w).Encode(entry)`. -/
  | encodeInfo (entry : I)
  /-- The call `t.ExecuteTemplate(w, "master", data)` on the template `t`. -/
  | executeTemplate (t : GoString) (data : TemplateData I)
  | write (b : GoString)
  /-- The call `http.Error(w, msg, code)`. -/
  | httpError (msg : GoString) (code : Nat)

/-- What a handler can change. -/
structure HState (σ E I : Type) where
  store : σ
  calls : List (StoreCall E)
  resp : List (RespOp I)
  logs : List GoString

/-- A handler computation: from a state to a result, `none` for a panic, and
the state reached. -/
def H (S α : Type) : Type := S → Option α × S

/-- Sequencing: a panic ends the computation. -/
def H.bind {S α β : Type} (m : H S α) (f : α → H S β) : H S β :=
  fun s =>
    match m s with
    | (some a, s1) => f a s1
    | (none, s1) => (none, s1)

instance {S : Type} : Monad (H S) where
  pure a := fun s => (some a, s)
  bind := H.bind

/-- The statement `panic(err)`. -/
def goPanic {S α : Type} : H S α := fun s => (none, s)

section Handlers

variable {σ E I A : Type}

def respond (op : RespOp I) : H (HState σ E I) Unit :=
  fun s => (some (), { s with resp := s.resp ++ [op] })

def logPrint (msg : GoString) : H (HState σ E I) Unit :=
  fun s => (some (), { s with logs := s.logs ++ [msg] })

def callNewEntry (ops : StoreOps σ E I) (secret : GoString) (a2 a3 : Int)
    (a4 a5 : GoString) : H (HState σ E I) GoString :=
  fun s =>
    let res := ops.NewEntry s.store secret a2 a3 a4 a5
    (some res.1,
      { s with store := res.2, calls := s.calls ++ [StoreCall.newEntry secret a2 a3 a4 a5] })

def callAddEntry (ops : StoreOps σ E I) (e : E) (id : GoString) :
    H (HState σ E I) GoString :=
  fun s =>
    let res := ops.AddEntry s.store e id
    (some res.1, { s with store := res.2, calls := s.calls ++ [StoreCall.addEntry e id] })

def callGetEntryInfo (ops : StoreOps σ E I) (id : GoString) :
    H (HState σ E I) (I × Bool) :=
  fun s =>
    let res := ops.GetEntryInfo s.store id
    (some res.1, { s with store := res.2, calls := s.calls ++ [StoreCall.getEntryInfo id] })

def callGetEntryInfoHidden (ops : StoreOps σ E I) (id : GoString) :
    H (HState σ E I) (I × Bool) :=
  fun s =>
    let res := ops.GetEntryInfoHidden s.store id
    (some res.1,
      { s with store := res.2, calls := s.calls ++ [StoreCall.getEntryInfoHidden id] })

def callClick (ops : StoreOps σ E I) (id : GoString) (r : Request) :
    H (HState σ E I) Unit :=
  fun s =>
    (some (), { s with store := ops.Click s.store id r, calls := s.calls ++ [StoreCall.click id] })

/-- The statement `if jerr := json.NewEncoder(w).Encode(jsonError{msg}); jerr != nil { panic(jerr) }`. -/
def encodeError (io : Io E) (msg : GoString) : H (HState σ E I) Unit := do
  respond (RespOp.encodeError msg)
  if io.encodeErr.isSome then goPanic

/-- The statement `if err := json.NewEncoder(w).Encode(entry); err != nil { panic(err) }`. -/
def encodeInfo (io : Io E) (entry : I) : H (HState σ E I) Unit := do
  respond (RespOp.encodeInfo entry)
  if io.encodeErr.isSome then goPanic

/-- The call `io.ReadAll(io.LimitReader(r.Body, maxData))`: the limited reader stops
after `maxData` bytes, so an error of the stream is seen only when the stream
ends before that. -/
def readAllLimited (r : Request) : Except GoString GoString :=
  if r.bodyData.length ≥ maxData then Except.ok (r.bodyData.take maxData)
  else
    match r.bodyErr with
    | some err => Except.error err
    | none => Except.ok r.bodyData

def contentTypeJSON : RespOp I :=
  RespOp.setHeader (str "Content-Type") (str "application/json; charset=UTF-8")

/-- The handler of `uApiCreate` ("/create"). -/
def handleApiCreate (ops : StoreOps σ E I) (g : Flags) (r : Request) :
    H (HState σ E I) Unit := do
  match r.form with
  | Except.error err => respond (RespOp.httpError err 400)
  | Except.ok form =>
    let entry ← callNewEntry ops (form (str "secret")) 1 7 (str "anonymous") (str "")
    match getURLBase g with
    | none => goPanic
    | some base => respond (RespOp.write (base ++ uGet ++ str "?id=" ++ entry))

/-- The statement `if fAllowAnonymous { http.HandleFunc(uApiCreate, ...) }` of
`main`: the handler registered for "/create", if there is one. -/
def createRoute (ops : StoreOps σ E I) (g : Flags) :
    Option (Request → H (HState σ E I) Unit) :=
  if g.fAllowAnonymous then some (handleApiCreate ops g) else none

/-- The handler of `uApiGet` ("/api/v1/get/"). -/
def handleApiGet (ops : StoreOps σ E I) (io : Io E) (r : Request) :
    H (HState σ E I) Unit := do
  if r.urlPath.length < uApiGet.length then goPanic
  let id := r.urlPath.drop uApiGet.length
  respond contentTypeJSON
  let (entry, ok) ← callGetEntryInfo ops id
  if !ok then
    respond (RespOp.writeHeader 404)
    logPrint (str "entry not found: " ++ id)
    encodeError io (str "not found")
  else
    callClick ops id r
    respond (RespOp.writeHeader 200)
    encodeInfo io entry

/-- The handler of `uApiNew` ("/api/v1/new"). -/
def handleApiNew (ops : StoreOps σ E I) (aops : AuthOps A E) (io : Io E) (auth : A)
    (r : Request) : H (HState σ E I) Unit := do
  match readAllLimited r with
  | Except.error _ => goPanic
  | Except.ok body =>
    if r.closeErr.isSome then goPanic
    respond contentTypeJSON
    match io.jsonUnmarshal body with
    | Except.error err =>
      respond (RespOp.writeHeader 422)
      logPrint (str "error processing json: " ++ err)
      encodeError io err
    | Except.ok entry0 =>
      let (authorized, entry) := aops.isAuthorized auth entry0
      if !authorized then
        respond (RespOp.writeHeader 401)
        logPrint (str "unauthorized try to make new entry")
        encodeError io (str "unauthorized")
      else
        let id ← callAddEntry ops entry (str "")
        let (newEntry, _) ← callGetEntryInfoHidden ops id
        logPrint (str "New ID: " ++ id)
        respond (RespOp.writeHeader 201)
        encodeInfo io newEntry

/-- The handler of `uGet` ("/g"). -/
def handleGet (ops : StoreOps σ E I) (userMessageView : GoString) (r : Request) :
    H (HState σ E I) Unit := do
  let id := r.queryId
  let (entry, ok) ← callGetEntryInfo ops id
  if !ok then
    respond (RespOp.writeHeader 404)
    logPrint (str "entry not found: " ++ id)
    respond (RespOp.executeTemplate (str "viewErr") TemplateData.null)
  else
    callClick ops id r
    respond (RespOp.writeHeader 200)
    respond (RespOp.executeTemplate (str "view") (TemplateData.view entry userMessageView))

/-- The handler of `uInfo` ("/i"). -/
def handleInfo (ops : StoreOps σ E I) (r : Request) : H (HState σ E I) Unit := do
  let id := r.queryId
  let (entry, ok) ← callGetEntryInfo ops id
  if !ok then
    respond (RespOp.writeHeader 404)
    respond (RespOp.executeTemplate (str "viewErr") TemplateData.null)
  else
    respond (RespOp.writeHeader 200)
    respond (RespOp.executeTemplate (str "viewInfo") (TemplateData.info entry))

/-- The state a handler starts in: the store as it is, nothing called yet. -/
def HState.init (store : σ) : HState σ E I :=
  { store := store, calls := [], resp := [], logs := [] }

/-- The names and the default text that `updateFiles` uses; they are constants
declared in another file of the package. -/
structure FileNames where
  authFileName : GoString
  cssFileName : GoString
  logoFileName : GoString
  userMessageViewFilename : GoString
  userMessageViewDefaultText : GoString

/-- The package variables that `updateFiles` assigns. -/
structure Loaded (A : Type) where
  auth : A
  css : GoString
  logo : GoString
  userMessageView : GoString
  updated : Nat

/-- The function `updateFiles()`, with `now` for `time.Now()`: the new values of the package
variables and the lines logged by `updateFiles` itself. -/
def updateFiles (aops : AuthOps A E) (env : Env) (names : FileNames) (now : Nat) :
    Loaded A × List GoString :=
  let auth := aops.makeTokenDB (tryReadFile env names.authFileName)
  let logs :=
    if aops.isNil auth then [str "auth db could not be loaded, please fix and reload"]
    else []
  let css := tryReadFile env names.cssFileName
  let logo := tryReadFile env names.logoFileName
  let userMessageView :=
    fileOrConst env names.userMessageViewFilename names.userMessageViewDefaultText
  ({ auth := auth, css := css, logo := logo, userMessageView := userMessageView,
     updated := now }, logs)

/-! ### The read handler of "/g" under concurrent requests

Each request is served by its own goroutine. The handler touches the shared
store twice, in `GetEntryInfo` and in `Click`; everything else it does is local
to the request. A schedule says which request makes its next store call. -/

/-- The first store call of `handleGet`. -/
def getLookup (ops : StoreOps σ E I) (r : Request) : H (HState σ E I) (I × Bool) :=
  callGetEntryInfo ops r.queryId

/-- The branch of `handleGet` taken when the lookup reported not found. -/
def getNotFound (r : Request) : H (HState σ E I) Unit := do
  respond (RespOp.writeHeader 404)
  logPrint (str "entry not found: " ++ r.queryId)
  respond (RespOp.executeTemplate (str "viewErr") TemplateData.null)

/-- The branch of `handleGet` taken when the lookup reported found. -/
def getFound (ops : StoreOps σ E I) (userMessageView : GoString) (r : Request)
    (entry : I) : H (HState σ E I) Unit := do
  callClick ops r.queryId r
  respond (RespOp.writeHeader 200)
  respond (RespOp.executeTemplate (str "view") (TemplateData.view entry userMessageView))

/-- Where a request is in `handleGet`. -/
inductive Pc (I : Type) where
  /-- Before the call of `GetEntryInfo`. -/
  | start
  /-- After `GetEntryInfo` returned `entry` and true, before `Click`. -/
  | found (entry : I)
  /-- The handler returned. -/
  | finished

/-- A request being served: its position and what it did so far. -/
structure Thread (E I : Type) where
  req : Request
  pc : Pc I
  calls : List (StoreCall E)
  resp : List (RespOp I)
  logs : List GoString

/-- A request that has just arrived. -/
def Thread.new (r : Request) : Thread E I :=
  { req := r, pc := Pc.start, calls := [], resp := [], logs := [] }

/-- One step of a request on the shared store: up to and including its next
store call, or to the end of the handler. -/
def Thread.step (ops : StoreOps σ E I) (userMessageView : GoString) (store : σ)
    (t : Thread E I) : σ × Thread E I :=
  let s0 : HState σ E I := { store := store, calls := t.calls, resp := t.resp, logs := t.logs }
  match t.pc with
  | Pc.start =>
    match getLookup ops t.req s0 with
    | (some (entry, ok), s1) =>
      if !ok then
        let s2 := (getNotFound t.req s1).2
        (s2.store, { t with pc := Pc.finished, calls := s2.calls, resp := s2.resp, logs := s2.logs })
      else
        (s1.store, { t with pc := Pc.found entry, calls := s1.calls, resp := s1.resp, logs := s1.logs })
    | (none, s1) =>
      (s1.store, { t with pc := Pc.finished, calls := s1.calls, resp := s1.resp, logs := s1.logs })
  | Pc.found entry =>
    let s2 := (getFound ops userMessageView t.req entry s0).2
    (s2.store, { t with pc := Pc.finished, calls := s2.calls, resp := s2.resp, logs := s2.logs })
  | Pc.finished => (store, t)

/-- The shared store and the requests in flight. -/
structure Sys (σ E I : Type) where
  store : σ
  threads : List (Thread E I)

/-- The requests `rs` arrive at a server whose store is `store`. -/
def Sys.start (store : σ) (rs : List Request) : Sys σ E I :=
  { store := store, threads := rs.map Thread.new }

/-- Request number `i` makes its next step. -/
def Sys.step (ops : StoreOps σ E I) (userMessageView : GoString) (sys : Sys σ E I)
    (i : Nat) : Sys σ E I :=
  match sys.threads[i]? with
  | none => sys
  | some t =>
    let res := Thread.step ops userMessageView sys.store t
    { store := res.1, threads := sys.threads.set i res.2 }

/-- The requests step in the order the schedule gives. -/
def Sys.run (ops : StoreOps σ E I) (userMessageView : GoString) (sys : Sys σ E I)
    (schedule : List Nat) : Sys σ E I :=
  schedule.foldl (Sys.step ops userMessageView) sys

/-- The request was answered with status 200, that is, with the secret. -/
def Thread.succeeded (t : Thread E I) : Bool :=
  t.resp.any fun op =>
    match op with
    | RespOp.writeHeader 200 => true
    | _ => false

/-- The request was answered with status 404. -/
def Thread.notFound (t : Thread E I) : Bool :=
  t.resp.any fun op =>
    match op with
    | RespOp.writeHeader 404 => true
    | _ => false

/-- Every request has returned. -/
def Sys.allFinished (sys : Sys σ E I) : Bool :=
  sys.threads.all fun t =>
    match t.pc with
    | Pc.finished => true
    | _ => false

/-- The number of requests answered with the secret. -/
def Sys.successes (sys : Sys σ E I) : Nat := (sys.threads.filter Thread.succeeded).length

/-- The number of requests answered with not found. -/
def Sys.notFounds (sys : Sys σ E I) : Nat := (sys.threads.filter Thread.notFound).length

end Handlers

/-! ## A store and a token authority after the specification -/

/-- Modelled from the spec: the type `StoreEntry` is declared in a file of the
package that is not available; this is the Entry of the data model (section 3),
with times in seconds. -/
structure Entry where
  id : GoString
  payload : GoString
  maxClicks : Nat
  remainingClicks : Nat
  createdAt : Int
  validityDuration : Int
  ownerLabel : GoString
  notifyTarget : GoString
  creationToken : GoString
deriving DecidableEq, Repr, Inhabited

/-- Modelled from the spec: the derived field `expiresAt`, which is
`createdAt + validityDuration`; the store file is not available. -/
def Entry.expiresAt (e : Entry) : Int := e.createdAt + e.validityDuration

/-- Modelled from the spec: the visibility invariant of section 3 (the store
file is not available): an entry is visible iff `remainingClicks > 0` and
`now < expiresAt`. -/
def Entry.visible (now : Int) (e : Entry) : Bool :=
  decide (e.remainingClicks > 0) && decide (now < e.expiresAt)

/-- Modelled from the spec: the type `secretStore` is declared in a file of the
package that is not available; this is the EntryStore of section 4.1 with its
clock, the identifiers the IdentifierGenerator will produce, and the
notifications emitted so far. -/
structure SpecStore where
  now : Int
  fresh : List GoString
  entries : List Entry
  notified : List GoString
deriving DecidableEq, Repr

/-- Modelled from the spec: the lookup shared by PeekForCreator and
FetchInfoOnly (the methods `GetEntryInfoHidden` and `GetEntryInfo` are not
available): a snapshot of the entry if it is visible, without any change of
the store. -/
def SpecStore.peek (st : SpecStore) (id : GoString) : Option Entry :=
  (st.entries.find? fun e => e.id == id).filter (Entry.visible st.now)

/-- Modelled from the spec: Insert of section 4.1 (the methods `AddEntry` and
`NewEntry` are not available): a fresh identifier is taken from the generator,
skipping those in use, and the entry is stored with all its clicks remaining.
When the generator is exhausted nothing is stored. -/
def SpecStore.insert (st : SpecStore) (payload : GoString) (maxClicks : Int)
    (validityDuration : Int) (ownerLabel notifyTarget creationToken : GoString) :
    GoString × SpecStore :=
  match st.fresh.dropWhile (fun id => st.entries.any fun e => e.id == id) with
  | [] => ([], st)
  | id :: rest =>
    let n := if maxClicks ≤ 0 then 1 else maxClicks.toNat
    (id, { st with
      fresh := rest
      entries := st.entries ++ [{
        id := id, payload := payload, maxClicks := n, remainingClicks := n,
        createdAt := st.now, validityDuration := validityDuration,
        ownerLabel := ownerLabel, notifyTarget := notifyTarget,
        creationToken := creationToken }] })

/-- Modelled from the spec: the decrement of Consume of section 4.1 (the method
`Click` is not available): a visible entry loses one remaining click, and when
that was its last one the notification for a non-empty `notifyTarget` is
emitted. -/
def SpecStore.click (st : SpecStore) (id : GoString) : SpecStore :=
  match st.peek id with
  | none => st
  | some e =>
    { st with
      entries := st.entries.map fun x =>
        if x.id == id then { x with remainingClicks := x.remainingClicks - 1 } else x
      notified :=
        if e.remainingClicks = 1 ∧ e.notifyTarget ≠ [] then st.notified ++ [e.notifyTarget]
        else st.notified }

/-- Modelled from the spec: the remaining clicks of the entry stored under an
identifier, zero when there is none (the store file is not available). -/
def SpecStore.remaining (st : SpecStore) (id : GoString) : Nat :=
  match st.entries.find? fun e => e.id == id with
  | some e => e.remainingClicks
  | none => 0

/-- Modelled from the spec: the methods of `secretStore` (not available) by the
operations of section 4.1 and 6; validity is given in days. -/
def specOps : StoreOps SpecStore Entry Entry where
  NewEntry st secret a2 a3 a4 a5 := st.insert secret a2 (a3 * 86400) a4 [] a5
  AddEntry st e _ :=
    st.insert e.payload e.maxClicks e.validityDuration e.ownerLabel e.notifyTarget
      e.creationToken
  GetEntryInfo st id :=
    match st.peek id with
    | some e => ((e, true), st)
    | none => ((default, false), st)
  GetEntryInfoHidden st id :=
    match st.peek id with
    | some e => ((e, true), st)
    | none => ((default, false), st)
  Click st id _ := st.click id

/-- Modelled from the spec: the type `TokenDB` is declared in a file of the
package that is not available; this is the TokenAuthority of section 4.3: a set
of tokens, or `none` when no valid data was loaded. -/
abbrev TokenAuthority := Option (List GoString)

/-- Modelled from the spec: construction of the TokenAuthority from a byte blob
of line-delimited tokens (`makeTokenDB` is not available); construction from
empty bytes fails. -/
def loadTokenAuthority (bytes : GoString) : TokenAuthority :=
  if bytes = [] then none
  else some ((bytes.splitOn 10).filter fun l => l != [])

/-- Modelled from the spec: IsAuthorized of section 4.3 (`isAuthorized` is not
available): true iff the token is in the loaded set, false for every token when
nothing valid was loaded. -/
def tokenAuthorized (auth : TokenAuthority) (token : GoString) : Bool :=
  match auth with
  | none => false
  | some tokens => tokens.contains token

/-- Modelled from the spec: the functions of `TokenDB` (not available) by the
TokenAuthority of section 4.3. -/
def specAuthOps : AuthOps TokenAuthority Entry where
  makeTokenDB := loadTokenAuthority
  isNil auth := auth.isNone
  isAuthorized auth e := (tokenAuthorized auth e.creationToken, e)

/-! ## Concrete situations -/

/-- The request `GET /g?id=...` for the identifier `id`. -/
def getRequest (id : GoString) : Request where
  urlPath := uGet
  queryId := id
  bodyData := []
  bodyErr := none
  closeErr := none
  form := Except.ok fun k => if k = str "id" then id else []

/-- The request `GET /i?id=...` for the identifier `id`. -/
def infoRequest (id : GoString) : Request where
  urlPath := uInfo
  queryId := id
  bodyData := []
  bodyErr := none
  closeErr := none
  form := Except.ok fun k => if k = str "id" then id else []

/-- The request `GET /api/v1/get/...` for the identifier `id`; it has no
query. -/
def apiGetRequest (id : GoString) : Request where
  urlPath := uApiGet ++ id
  queryId := []
  bodyData := []
  bodyErr := none
  closeErr := none
  form := Except.ok fun _ => []

/-- A `POST` to "/api/v1/new" with the given body, which is not a form. -/
def postRequest (body : GoString) : Request where
  urlPath := uApiNew
  queryId := []
  bodyData := body
  bodyErr := none
  closeErr := none
  form := Except.ok fun _ => []

/-- A `POST` to "/create" whose form has the one field `secret`. -/
def createRequest (secret : GoString) : Request where
  urlPath := uApiCreate
  queryId := []
  bodyData := str "secret=" ++ secret
  bodyErr := none
  closeErr := none
  form := Except.ok fun k => if k = str "secret" then secret else []

/-- An entry with one click, as created by the scenario of section 8: payload
"hello", maxClicks 1, valid for 7 days. -/
def helloEntry : Entry where
  id := str "X"
  payload := str "hello"
  maxClicks := 1
  remainingClicks := 1
  createdAt := 0
  validityDuration := 604800
  ownerLabel := str "anonymous"
  notifyTarget := []
  creationToken := []

/-- A store at time 100 holding `helloEntry`, an entry "used" without clicks
left and an entry "old" that expired at time 50. -/
def helloStore : SpecStore where
  now := 100
  fresh := [str "Y", str "Z"]
  entries :=
    [ helloEntry,
      { helloEntry with id := str "used", remainingClicks := 0 },
      { helloEntry with id := str "old", validityDuration := 50 } ]
  notified := []

/-- File names for `updateFiles` in the concrete situations; none of them exists
in `testEnv`. -/
def sampleNames : FileNames where
  authFileName := str "tokens.json"
  cssFileName := str "custom.css"
  logoFileName := str "logo.png"
  userMessageViewFilename := str "message.txt"
  userMessageViewDefaultText := str "Please copy the secret now."

/-- The body of a creation request that carries the token "abc123". -/
def tokenBody : GoString := str "\x7b\"token\":\"abc123\"\x7d"

/-- The entry that `tokenBody` parses to. -/
def tokenEntry : Entry := { (default : Entry) with creationToken := str "abc123" }

/-- A secret of `maxData + 1` bytes, each the letter a. -/
def oversizedSecret : GoString := List.replicate (maxData + 1) 97

/-- A JSON codec for the concrete situations: `tokenBody` parses to
`tokenEntry`, anything else is an error; writing succeeds. -/
def sampleIo : Io Entry where
  jsonUnmarshal body :=
    if body = tokenBody then Except.ok tokenEntry
    else Except.error (str "invalid character")
  encodeErr := none

/-! ## Properties of file.go -/

theorem osOpen_nil (env : Env) : osOpen env [] = false := by
  simp [osOpen]

theorem osReadFile_nil (env : Env) : osReadFile env [] = none := by
  simp [osReadFile]

theorem osOpen_of_osReadFile {env : Env} {pn c : GoString}
    (h : osReadFile env pn = some c) : osOpen env pn = true := by
  unfold osReadFile at h
  unfold osOpen
  by_cases hp : pn = []
  · simp [hp] at h
  · simp only [hp, if_false] at h ⊢
    cases hfs : env.fs pn <;> simp [hfs] at h ⊢

theorem tryFileDirs_eq (env : Env) :
    tryFileDirs env =
      match env.getwd with
      | some cwd => [cwd, env.configDir]
      | none => [env.configDir] := by
  unfold tryFileDirs
  cases env.getwd <;> rfl

theorem tryFileLoop_eq_nil_iff (env : Env) (fn : GoString) (dirs : List GoString) :
    tryFileLoop env fn dirs = [] ↔ ∀ dir ∈ dirs, osOpen env (env.join dir fn) = false := by
  induction dirs with
  | nil => simp [tryFileLoop]
  | cons d rest ih =>
    by_cases hd : osOpen env (env.join d fn) = true
    · have hne : env.join d fn ≠ [] := by
        intro h0
        rw [h0, osOpen_nil] at hd
        exact Bool.noConfusion hd
      simp [tryFileLoop, hd, hne]
    · simp only [Bool.not_eq_true] at hd
      simp [tryFileLoop, hd, ih]

theorem tryFileLoop_opens (env : Env) (fn : GoString) (dirs : List GoString)
    (h : tryFileLoop env fn dirs ≠ []) : osOpen env (tryFileLoop env fn dirs) = true := by
  induction dirs with
  | nil => simp [tryFileLoop] at h
  | cons d rest ih =>
    by_cases hd : osOpen env (env.join d fn) = true
    · simp [tryFileLoop, hd]
    · simp only [Bool.not_eq_true] at hd
      simp only [tryFileLoop, hd] at h ⊢
      exact ih h

theorem tryFile_cases (env : Env) (fn : GoString) :
    tryFile env fn =
      match env.getwd with
      | some cwd =>
        if osOpen env (env.join cwd fn) then env.join cwd fn
        else if osOpen env (env.join env.configDir fn) then env.join env.configDir fn
        else []
      | none =>
        if osOpen env (env.join env.configDir fn) then env.join env.configDir fn else [] := by
  unfold tryFile
  rw [tryFileDirs_eq]
  cases env.getwd <;> simp [tryFileLoop]

/-- C1: when the working directory is `cwd` and `fn` opens and reads there,
`tryReadFile fn` is the contents of `cwd/fn`, whatever `configDir/fn` is; when
`fn` does not open in `cwd` but opens and reads in `configDir`, `tryReadFile fn`
is the contents of `configDir/fn`. -/
theorem tryReadFile_cwd_then_configDir (env : Env) (fn cwd c : GoString)
    (hwd : env.getwd = some cwd) :
    (osOpen env (env.join cwd fn) = true →
      osReadFile env (env.join cwd fn) = some c → tryReadFile env fn = c) ∧
    (osOpen env (env.join cwd fn) = false →
      osOpen env (env.join env.configDir fn) = true →
      osReadFile env (env.join env.configDir fn) = some c → tryReadFile env fn = c) := by
  have hcases := tryFile_cases env fn
  rw [hwd] at hcases
  constructor
  · intro ho hr
    simp only [ho, if_true] at hcases
    simp [tryReadFile, hcases, hr]
  · intro hno ho hr
    simp only [hno, ho, if_true] at hcases
    simp [tryReadFile, hcases, hr]

/-- Witness of C1 in the situation of `TestTryReadFile`: the file of the working
directory ("testPwd") shadows the one of `configDir` ("test"), and a file that
is only in `configDir` is read from there. -/
theorem tryReadFile_cwd_then_configDir_witness :
    testEnv.getwd = some (str "/work") ∧
    osReadFile testEnv (str "/tmp/gotili_test/gotili_testfile") = some (str "test") ∧
    tryReadFile testEnv (str "gotili_testfile") = str "testPwd" ∧
    tryReadFile testEnv (str "onlyconf") = str "conf" :=
  ⟨by decide, by decide,
    (tryReadFile_cwd_then_configDir testEnv (str "gotili_testfile") (str "/work")
      (str "testPwd") (by decide)).1 (by decide) (by decide),
    (tryReadFile_cwd_then_configDir testEnv (str "onlyconf") (str "/work")
      (str "conf") (by decide)).2 (by decide) (by decide) (by decide)⟩

/-- C2: when `fn` opens neither in the working directory (if that is known) nor
in `configDir`, or when the file that `tryFile` found cannot be read,
`tryReadFile fn` is the empty byte slice, of length 0. `tryReadFile` is a total
function: there is no input on which it fails. -/
theorem tryReadFile_empty_on_failure (env : Env) (fn : GoString)
    (h : ((∀ cwd, env.getwd = some cwd → osOpen env (env.join cwd fn) = false) ∧
            osOpen env (env.join env.configDir fn) = false) ∨
          osReadFile env (tryFile env fn) = none) :
    tryReadFile env fn = [] ∧ (tryReadFile env fn).length = 0 := by
  have key : osReadFile env (tryFile env fn) = none := by
    rcases h with ⟨hcwd, hconf⟩ | hr
    · have hcases := tryFile_cases env fn
      cases hwd : env.getwd with
      | none =>
        rw [hwd] at hcases
        simp only [hconf] at hcases
        rw [hcases]
        exact osReadFile_nil env
      | some cwd =>
        rw [hwd] at hcases
        simp only [hcwd cwd hwd, hconf] at hcases
        rw [hcases]
        exact osReadFile_nil env
    · exact hr
  simp [tryReadFile, key]

/-- Witness of C2: a name that exists nowhere, and a name that is found in the
working directory but is a directory there. -/
theorem tryReadFile_empty_on_failure_witness :
    tryFile testEnv (str "sub") = str "/work/sub" ∧
    (tryReadFile testEnv (str "doesnotexist") = [] ∧
      (tryReadFile testEnv (str "doesnotexist")).length = 0) ∧
    (tryReadFile testEnv (str "sub") = [] ∧ (tryReadFile testEnv (str "sub")).length = 0) :=
  ⟨by decide,
    tryReadFile_empty_on_failure testEnv (str "doesnotexist")
      (Or.inl ⟨fun cwd hc => by
        have h2 : cwd = str "/work" := (Option.some.inj hc).symm
        subst h2
        decide, by decide⟩),
    tryReadFile_empty_on_failure testEnv (str "sub") (Or.inr (by decide))⟩

/-- C3: `tryFile fn` tries the working directory (when `os.Getwd` gave one) and
then `configDir`, and returns `path.Join(dir, fn)` for the first of them in
which that path opens; it returns the empty string iff the path opens in none
of the tried directories; a non-empty result is a path that opened. -/
theorem tryFile_first_openable (env : Env) (fn : GoString) :
    (tryFileDirs env =
      match env.getwd with
      | some cwd => [cwd, env.configDir]
      | none => [env.configDir]) ∧
    (∀ pre dir post, tryFileDirs env = pre ++ dir :: post →
      (∀ d ∈ pre, osOpen env (env.join d fn) = false) →
      osOpen env (env.join dir fn) = true → tryFile env fn = env.join dir fn) ∧
    (tryFile env fn = [] ↔ ∀ dir ∈ tryFileDirs env, osOpen env (env.join dir fn) = false) ∧
    (tryFile env fn ≠ [] → osOpen env (tryFile env fn) = true) := by
  refine ⟨tryFileDirs_eq env, ?_, tryFileLoop_eq_nil_iff env fn _, tryFileLoop_opens env fn _⟩
  intro pre dir post hdirs hpre hdir
  unfold tryFile
  rw [hdirs]
  clear hdirs
  induction pre with
  | nil => simp [tryFileLoop, hdir]
  | cons p ps ih =>
    have hp : osOpen env (env.join p fn) = false := hpre p (List.mem_cons_self _ _)
    simp only [List.cons_append, tryFileLoop, hp]
    exact ih (fun d hd => hpre d (List.mem_cons_of_mem _ hd))

/-- What `fileOrConst` computes: `string(tryReadFile(fn))` when that is not
empty, and the default otherwise: the contents of an accessible file that is
not empty, the default when the file is not accessible, and the default again
when the file is accessible but empty. -/
theorem fileOrConst_nonempty_or_default (env : Env) (fn dflt : GoString) :
    (fileOrConst env fn dflt =
      if tryReadFile env fn ≠ [] then tryReadFile env fn else dflt) ∧
    (∀ c, osReadFile env (tryFile env fn) = some c → c ≠ [] →
      fileOrConst env fn dflt = c) ∧
    (osReadFile env (tryFile env fn) = none → fileOrConst env fn dflt = dflt) ∧
    (osReadFile env (tryFile env fn) = some [] → fileOrConst env fn dflt = dflt) := by
  refine ⟨?_, ?_, ?_, ?_⟩
  · unfold fileOrConst
    by_cases h : tryReadFile env fn = []
    · simp [h]
    · have hpos : 0 < (tryReadFile env fn).length := List.length_pos.mpr h
      simp [h, hpos]
  · intro c hr hc
    have hpos : 0 < c.length := List.length_pos.mpr hc
    simp [fileOrConst, tryReadFile, hr, hpos]
  · intro hr
    simp [fileOrConst, tryReadFile, hr]
  · intro hr
    simp [fileOrConst, tryReadFile, hr]

/-- C4 fails on the code, against the comment of `fileOrConst` itself (a default
string "if the file is not accessible"): `empty.txt` is absent from the working
directory and is a file with no bytes in `configDir`; it is found, it opens and
it reads, and its contents as a string are the empty string, which is what
`tryReadFile` returns; yet `fileOrConst` returns the default "default" and not
the contents. -/
theorem fileOrConst_empty_file_returns_default :
    osOpen testEnv (slashJoin (str "/work") (str "empty.txt")) = false ∧
    tryFile testEnv (str "empty.txt") = str "/tmp/gotili_test/empty.txt" ∧
    osOpen testEnv (tryFile testEnv (str "empty.txt")) = true ∧
    osReadFile testEnv (tryFile testEnv (str "empty.txt")) = some [] ∧
    tryReadFile testEnv (str "empty.txt") = [] ∧
    fileOrConst testEnv (str "empty.txt") (str "default") = str "default" ∧
    fileOrConst testEnv (str "empty.txt") (str "default") ≠
      tryReadFile testEnv (str "empty.txt") := by
  decide

/-! ## Properties of getURLBase -/

theorem afterLastColon_of_not_mem {s : GoString} (h : ':'.toUInt8 ∉ s) :
    afterLastColon s = s := by
  unfold afterLastColon
  have hall : ∀ b ∈ s.reverse, (b != ':'.toUInt8) = true := by
    intro b hb
    have hb2 : b ∈ s := List.mem_reverse.mp hb
    simp only [bne_iff_ne, ne_eq]
    intro hbc
    exact h (hbc ▸ hb2)
  rw [List.takeWhile_eq_self_iff.mpr hall, List.reverse_reverse]

theorem afterLastColon_append_colon (pre post : GoString) (h : ':'.toUInt8 ∉ post) :
    afterLastColon (pre ++ ':'.toUInt8 :: post) = post := by
  unfold afterLastColon
  have hall : ∀ b ∈ post.reverse, (b != ':'.toUInt8) = true := by
    intro b hb
    have hb2 : b ∈ post := List.mem_reverse.mp hb
    simp only [bne_iff_ne, ne_eq]
    intro hbc
    exact h (hbc ▸ hb2)
  rw [List.reverse_append, List.reverse_cons, List.append_assoc,
    List.takeWhile_append_of_pos hall]
  simp

theorem exists_last_colon {s : GoString} (h : ':'.toUInt8 ∈ s) :
    ∃ pre post, s = pre ++ ':'.toUInt8 :: post ∧ ':'.toUInt8 ∉ post := by
  induction s with
  | nil => simp at h
  | cons x xs ih =>
    by_cases hxs : ':'.toUInt8 ∈ xs
    · obtain ⟨pre, post, hs, hp⟩ := ih hxs
      exact ⟨x :: pre, post, by rw [hs]; rfl, hp⟩
    · have hx : x = ':'.toUInt8 := by
        rcases List.mem_cons.mp h with h1 | h1
        · exact h1.symm
        · exact absurd h1 hxs
      exact ⟨[], xs, by rw [hx]; rfl, hxs⟩

theorem afterLastColon_cons (x : UInt8) (xs : GoString) :
    afterLastColon (x :: xs) =
      if ':'.toUInt8 ∈ xs then afterLastColon xs
      else if x = ':'.toUInt8 then xs else x :: xs := by
  by_cases hxs : ':'.toUInt8 ∈ xs
  · obtain ⟨pre, post, hs, hp⟩ := exists_last_colon hxs
    rw [if_pos hxs, hs, afterLastColon_append_colon pre post hp]
    exact afterLastColon_append_colon (x :: pre) post hp
  · rw [if_neg hxs]
    by_cases hx : x = ':'.toUInt8
    · rw [if_pos hx, hx]
      exact afterLastColon_append_colon [] xs hxs
    · rw [if_neg hx]
      apply afterLastColon_of_not_mem
      intro hmem
      rcases List.mem_cons.mp hmem with h1 | h1
      · exact hx h1.symm
      · exact hxs h1

theorem stringsSplit_last (s : GoString) :
    ∃ front, stringsSplit s ':'.toUInt8 = front ++ [afterLastColon s] ∧
      (front = [] ↔ ':'.toUInt8 ∉ s) := by
  induction s with
  | nil => exact ⟨[], by decide, by simp⟩
  | cons x xs ih =>
    obtain ⟨front, hsplit, hfront⟩ := ih
    unfold stringsSplit List.splitOn at hsplit ⊢
    rw [List.splitOnP_cons, hsplit, afterLastColon_cons]
    by_cases hx : x = ':'.toUInt8
    · refine ⟨[] :: front, ?_, by simp [hx]⟩
      by_cases hxs : ':'.toUInt8 ∈ xs
      · simp [hx, hxs]
      · simp [hx, hxs, afterLastColon_of_not_mem hxs]
    · have hbeq : (x == ':'.toUInt8) = false := by simpa using hx
      by_cases hxs : ':'.toUInt8 ∈ xs
      · have hne : front ≠ [] := fun h0 => (hfront.mp h0) hxs
        obtain ⟨f, fs, hf⟩ := List.exists_cons_of_ne_nil hne
        refine ⟨(x :: f) :: fs, ?_, ?_⟩
        · simp [hbeq, hxs, hf]
        · simp only [reduceCtorEq, false_iff, not_not]
          exact List.mem_cons_of_mem _ hxs
      · have h0 : front = [] := hfront.mpr hxs
        refine ⟨[], ?_, ?_⟩
        · simp [hbeq, hxs, hx, h0, afterLastColon_of_not_mem hxs]
        · simp only [true_iff]
          intro hmem
          rcases List.mem_cons.mp hmem with h1 | h1
          · exact hx h1.symm
          · exact hxs h1

theorem goIndex_last {α : Type} (front : List α) (a : α) :
    goIndex (front ++ [a]) (((front ++ [a]).length : Int) - 1) = some a := by
  unfold goIndex
  have hlen : (((front ++ [a]).length : Int) - 1) = (front.length : Int) := by
    simp
  rw [hlen]
  have hcond : 0 ≤ (front.length : Int) ∧ (front.length : Int) < ((front ++ [a]).length : Int) := by
    constructor
    · exact Int.ofNat_nonneg _
    · simp
  rw [if_pos hcond, Int.toNat_ofNat]
  exact List.getElem?_concat_length front a

/-- C10: `getURLBase` never panics (its result is always `some`); it is
`fURLBase` when that is not empty, and otherwise `scheme`, "localhost", ":" and
the part `p` of `fListen` after its last colon, where `p` contains no colon, is
all of `fListen` when `fListen` has no colon, and otherwise follows a colon at
the end of `fListen`. With the defaults (":9154", "http://") it is
"http://localhost:9154". -/
theorem getURLBase_total (g : Flags) :
    (getURLBase g =
      some (if g.fURLBase ≠ [] then g.fURLBase
        else g.scheme ++ str "localhost" ++ str ":" ++ afterLastColon g.fListen)) ∧
    ':'.toUInt8 ∉ afterLastColon g.fListen ∧
    (':'.toUInt8 ∉ g.fListen → afterLastColon g.fListen = g.fListen) ∧
    (':'.toUInt8 ∈ g.fListen →
      ∃ pre, g.fListen = pre ++ ':'.toUInt8 :: afterLastColon g.fListen) ∧
    getURLBase { defaultFlags with fListen := str ":9154", scheme := str "http://" } =
      some (str "http://localhost:9154") := by
  refine ⟨?_, ?_, fun h => afterLastColon_of_not_mem h, ?_, by decide⟩
  · unfold getURLBase
    by_cases hb : g.fURLBase = []
    · obtain ⟨front, hsplit, _⟩ := stringsSplit_last g.fListen
      simp only [hb, ne_eq, not_true_eq_false, if_false]
      rw [hsplit, goIndex_last]
      rfl
    · simp [hb]
  · by_cases hmem : ':'.toUInt8 ∈ g.fListen
    · obtain ⟨pre, post, hs, hp⟩ := exists_last_colon hmem
      rw [hs, afterLastColon_append_colon pre post hp]
      exact hp
    · rw [afterLastColon_of_not_mem hmem]
      exact hmem
  · intro hmem
    obtain ⟨pre, post, hs, hp⟩ := exists_last_colon hmem
    refine ⟨pre, ?_⟩
    rw [hs, afterLastColon_append_colon pre post hp]

/-! ## Properties of the handlers -/

section HandlerProperties

variable {σ E I A : Type}

/-- What `handleGet` does, in one piece. -/
theorem handleGet_eq (ops : StoreOps σ E I) (umv : GoString) (r : Request)
    (s : HState σ E I) :
    handleGet ops umv r s =
      (let res := ops.GetEntryInfo s.store r.queryId
       if res.1.2 = false then
         (some (), {
            store := res.2
            calls := s.calls ++ [StoreCall.getEntryInfo r.queryId]
            resp := s.resp ++ [RespOp.writeHeader 404,
              RespOp.executeTemplate (str "viewErr") TemplateData.null]
            logs := s.logs ++ [str "entry not found: " ++ r.queryId] })
       else
         (some (), {
            store := ops.Click res.2 r.queryId r
            calls := s.calls ++ [StoreCall.getEntryInfo r.queryId, StoreCall.click r.queryId]
            resp := s.resp ++ [RespOp.writeHeader 200,
              RespOp.executeTemplate (str "view") (TemplateData.view res.1.1 umv)]
            logs := s.logs })) := by
  simp only [handleGet, bind, H.bind, callGetEntryInfo]
  cases h : (ops.GetEntryInfo s.store r.queryId).1.2 <;>
    simp [h, H.bind, respond, logPrint, callClick]

/-- What `handleInfo` does, in one piece. -/
theorem handleInfo_eq (ops : StoreOps σ E I) (r : Request) (s : HState σ E I) :
    handleInfo ops r s =
      (let res := ops.GetEntryInfo s.store r.queryId
       if res.1.2 = false then
         (some (), {
            store := res.2
            calls := s.calls ++ [StoreCall.getEntryInfo r.queryId]
            resp := s.resp ++ [RespOp.writeHeader 404,
              RespOp.executeTemplate (str "viewErr") TemplateData.null]
            logs := s.logs })
       else
         (some (), {
            store := res.2
            calls := s.calls ++ [StoreCall.getEntryInfo r.queryId]
            resp := s.resp ++ [RespOp.writeHeader 200,
              RespOp.executeTemplate (str "viewInfo") (TemplateData.info res.1.1)]
            logs := s.logs })) := by
  simp only [handleInfo, bind, H.bind, callGetEntryInfo]
  cases h : (ops.GetEntryInfo s.store r.queryId).1.2 <;>
    simp [h, H.bind, respond]

/-- What `handleApiGet` does on a path that has the prefix of the route. -/
theorem handleApiGet_eq (ops : StoreOps σ E I) (io : Io E) (r : Request)
    (s : HState σ E I) (hlen : uApiGet.length ≤ r.urlPath.length) :
    handleApiGet ops io r s =
      (let id := r.urlPath.drop uApiGet.length
       let res := ops.GetEntryInfo s.store id
       if res.1.2 = false then
         (if io.encodeErr.isSome then none else some (), {
            store := res.2
            calls := s.calls ++ [StoreCall.getEntryInfo id]
            resp := s.resp ++ [contentTypeJSON, RespOp.writeHeader 404,
              RespOp.encodeError (str "not found")]
            logs := s.logs ++ [str "entry not found: " ++ id] })
       else
         (if io.encodeErr.isSome then none else some (), {
            store := ops.Click res.2 id r
            calls := s.calls ++ [StoreCall.getEntryInfo id, StoreCall.click id]
            resp := s.resp ++ [contentTypeJSON, RespOp.writeHeader 200,
              RespOp.encodeInfo res.1.1]
            logs := s.logs })) := by
  have hnot : ¬ r.urlPath.length < uApiGet.length := Nat.not_lt.mpr hlen
  simp only [handleApiGet, bind, H.bind, callGetEntryInfo, hnot, if_false, pure, respond]
  cases h : (ops.GetEntryInfo s.store (List.drop uApiGet.length r.urlPath)).1.2 <;>
    cases he : io.encodeErr <;>
    simp [h, he, H.bind, respond, logPrint, callClick, encodeError, encodeInfo, goPanic,
      bind, pure]

/-- What `handleApiNew` does on a request whose body is read and parses. -/
theorem handleApiNew_eq (ops : StoreOps σ E I) (aops : AuthOps A E) (io : Io E) (auth : A)
    (r : Request) (s : HState σ E I) (body : GoString) (e : E)
    (hread : readAllLimited r = Except.ok body) (hclose : r.closeErr = none)
    (hparse : io.jsonUnmarshal body = Except.ok e) :
    handleApiNew ops aops io auth r s =
      (if (aops.isAuthorized auth e).1 = false then
         (if io.encodeErr.isSome then none else some (), {
            store := s.store
            calls := s.calls
            resp := s.resp ++ [contentTypeJSON, RespOp.writeHeader 401,
              RespOp.encodeError (str "unauthorized")]
            logs := s.logs ++ [str "unauthorized try to make new entry"] })
       else
         let added := ops.AddEntry s.store (aops.isAuthorized auth e).2 (str "")
         let shown := ops.GetEntryInfoHidden added.2 added.1
         (if io.encodeErr.isSome then none else some (), {
            store := shown.2
            calls := s.calls ++ [StoreCall.addEntry (aops.isAuthorized auth e).2 (str ""),
              StoreCall.getEntryInfoHidden added.1]
            resp := s.resp ++ [contentTypeJSON, RespOp.writeHeader 201,
              RespOp.encodeInfo shown.1.1]
            logs := s.logs ++ [str "New ID: " ++ added.1] })) := by
  simp only [handleApiNew, hread, hclose, hparse]
  cases h : (aops.isAuthorized auth e).1 <;>
    cases he : io.encodeErr <;>
    simp [h, he, H.bind, respond, logPrint, callAddEntry, callGetEntryInfoHidden,
      encodeError, encodeInfo, goPanic, bind, pure]

/-- A failing `r.Body.Close()` makes `handleApiNew` panic before it responds or
calls the store. -/
theorem handleApiNew_close_error (ops : StoreOps σ E I) (aops : AuthOps A E) (io : Io E)
    (auth : A) (r : Request) (s : HState σ E I) (body err : GoString)
    (hread : readAllLimited r = Except.ok body) (hclose : r.closeErr = some err) :
    handleApiNew ops aops io auth r s = (none, s) := by
  simp [handleApiNew, hread, hclose, bind, H.bind, goPanic]

/-- What `io.ReadAll(io.LimitReader(r.Body, maxData))` returns is at most
`maxData` bytes long. -/
theorem readAllLimited_length_le (r : Request) (body : GoString)
    (hread : readAllLimited r = Except.ok body) : body.length ≤ maxData := by
  unfold readAllLimited at hread
  by_cases hlen : r.bodyData.length ≥ maxData
  · rw [if_pos hlen] at hread
    injection hread with hb
    rw [← hb, List.length_take]
    exact Nat.min_le_left _ _
  · rw [if_neg hlen] at hread
    cases hbe : r.bodyErr with
    | some err => simp [hbe] at hread
    | none =>
      simp only [hbe] at hread
      injection hread with hb
      rw [← hb]
      omega

/-- C5: on a request to "/api/v1/new" whose body is read and parses as JSON,
if `isAuthorized` returns false then the handler makes no call on the store
(in particular no `AddEntry`), leaves the store as it was, and (unless closing
the body failed, in which case it responds nothing) responds with the JSON
content type, status 401 and the JSON error "unauthorized", a response that
does not depend on the token database or the entry; and `AddEntry` occurs
among the store calls only if `isAuthorized` returned true. -/
theorem apiNew_unauthorized_adds_nothing (ops : StoreOps σ E I) (aops : AuthOps A E)
    (io : Io E) (auth : A) (r : Request) (store : σ) (body : GoString) (e : E)
    (hread : readAllLimited r = Except.ok body)
    (hparse : io.jsonUnmarshal body = Except.ok e) :
    ((aops.isAuthorized auth e).1 = false →
      (handleApiNew ops aops io auth r (HState.init store)).2.store = store ∧
      (handleApiNew ops aops io auth r (HState.init store)).2.calls = [] ∧
      (r.closeErr = none →
        (handleApiNew ops aops io auth r (HState.init store)).2.resp =
          [contentTypeJSON, RespOp.writeHeader 401,
            RespOp.encodeError (str "unauthorized")])) ∧
    ((∃ x id, StoreCall.addEntry x id ∈
        (handleApiNew ops aops io auth r (HState.init store)).2.calls) →
      (aops.isAuthorized auth e).1 = true) := by
  cases hc : r.closeErr with
  | some err =>
    rw [handleApiNew_close_error ops aops io auth r _ body err hread hc]
    simp [HState.init]
  | none =>
    rw [handleApiNew_eq ops aops io auth r _ body e hread hc hparse]
    cases ha : (aops.isAuthorized auth e).1 <;> simp [HState.init]

/-- Witness of C5 on the store and token authority written after the
specification: the token database that `updateFiles` leaves when the token file
cannot be found (`none`, failed to load) and a loaded one that does not hold
the token of the request both give the same response, status 401, and no call
on the store. -/
theorem apiNew_unauthorized_adds_nothing_witness :
    (updateFiles specAuthOps testEnv sampleNames 0).1.auth = none ∧
    loadTokenAuthority (str "xyz\n") = some [str "xyz"] ∧
    (handleApiNew specOps specAuthOps sampleIo
        (updateFiles specAuthOps testEnv sampleNames 0).1.auth
        (postRequest tokenBody) (HState.init helloStore)).2.calls = [] ∧
    (handleApiNew specOps specAuthOps sampleIo (loadTokenAuthority (str "xyz\n"))
        (postRequest tokenBody) (HState.init helloStore)).2.calls = [] ∧
    (handleApiNew specOps specAuthOps sampleIo
        (updateFiles specAuthOps testEnv sampleNames 0).1.auth
        (postRequest tokenBody) (HState.init helloStore)).2.resp =
      [contentTypeJSON, RespOp.writeHeader 401, RespOp.encodeError (str "unauthorized")] ∧
    (handleApiNew specOps specAuthOps sampleIo (loadTokenAuthority (str "xyz\n"))
        (postRequest tokenBody) (HState.init helloStore)).2.resp =
      [contentTypeJSON, RespOp.writeHeader 401, RespOp.encodeError (str "unauthorized")] :=
  have h1 := (apiNew_unauthorized_adds_nothing specOps specAuthOps sampleIo
    (updateFiles specAuthOps testEnv sampleNames 0).1.auth (postRequest tokenBody) helloStore
    tokenBody tokenEntry rfl rfl).1 (by decide)
  have h2 := (apiNew_unauthorized_adds_nothing specOps specAuthOps sampleIo
    (loadTokenAuthority (str "xyz\n")) (postRequest tokenBody) helloStore tokenBody tokenEntry
    rfl rfl).1 (by decide)
  ⟨by decide, by decide, h1.2.1, h2.2.1, h1.2.2 rfl, h2.2.2 rfl⟩

/-- On a path shorter than the pattern of the route, which the router never
hands to it, `handleApiGet` panics in the slice expression before it calls the
store or responds. -/
theorem handleApiGet_short (ops : StoreOps σ E I) (io : Io E) (r : Request)
    (s : HState σ E I) (hlen : r.urlPath.length < uApiGet.length) :
    handleApiGet ops io r s = (none, s) := by
  simp [handleApiGet, hlen, bind, H.bind, goPanic]

/-- C7: when `GetEntryInfo` reports not found, the handler of "/g" (on every
request) and the handler of "/api/v1/get/" (on every request whose path has the
pattern of the route in front, as the router guarantees) answer with a response
that is the same whatever the store, the identifier and the entry value
returned with the flag are, so unknown, expired and exhausted identifiers are
answered alike: status 404 and the error page executed on no data,
respectively the JSON content type, status 404 and the JSON error "not found".
The only store call is the lookup, so no `Click` is performed, and no entry
data is in the response. In both handlers status 404 is written exactly when
the flag is false and status 200 exactly when it is true. -/
theorem read_not_found_uniform (ops : StoreOps σ E I) (io : Io E) (umv : GoString) :
    (∀ (store : σ) (r : Request), (ops.GetEntryInfo store r.queryId).1.2 = false →
      (handleGet ops umv r (HState.init store)).2.resp =
        [RespOp.writeHeader 404, RespOp.executeTemplate (str "viewErr") TemplateData.null] ∧
      (handleGet ops umv r (HState.init store)).2.calls =
        [StoreCall.getEntryInfo r.queryId] ∧
      (handleGet ops umv r (HState.init store)).2.store =
        (ops.GetEntryInfo store r.queryId).2) ∧
    (∀ (store : σ) (r : Request), uApiGet.length ≤ r.urlPath.length →
      (ops.GetEntryInfo store (r.urlPath.drop uApiGet.length)).1.2 = false →
      (handleApiGet ops io r (HState.init store)).2.resp =
        [contentTypeJSON, RespOp.writeHeader 404, RespOp.encodeError (str "not found")] ∧
      (handleApiGet ops io r (HState.init store)).2.calls =
        [StoreCall.getEntryInfo (r.urlPath.drop uApiGet.length)] ∧
      (handleApiGet ops io r (HState.init store)).2.store =
        (ops.GetEntryInfo store (r.urlPath.drop uApiGet.length)).2) ∧
    (∀ (store : σ) (r : Request),
      (RespOp.writeHeader 404 ∈ (handleGet ops umv r (HState.init store)).2.resp ↔
        (ops.GetEntryInfo store r.queryId).1.2 = false) ∧
      (RespOp.writeHeader 200 ∈ (handleGet ops umv r (HState.init store)).2.resp ↔
        (ops.GetEntryInfo store r.queryId).1.2 = true)) ∧
    (∀ (store : σ) (r : Request), uApiGet.length ≤ r.urlPath.length →
      (RespOp.writeHeader 404 ∈ (handleApiGet ops io r (HState.init store)).2.resp ↔
        (ops.GetEntryInfo store (r.urlPath.drop uApiGet.length)).1.2 = false) ∧
      (RespOp.writeHeader 200 ∈ (handleApiGet ops io r (HState.init store)).2.resp ↔
        (ops.GetEntryInfo store (r.urlPath.drop uApiGet.length)).1.2 = true)) := by
  refine ⟨?_, ?_, ?_, ?_⟩
  · intro store r hget
    rw [handleGet_eq]
    simp [HState.init, hget]
  · intro store r hlen hapi
    rw [handleApiGet_eq ops io r _ hlen]
    simp [HState.init, hapi]
  · intro store r
    rw [handleGet_eq]
    cases h : (ops.GetEntryInfo store r.queryId).1.2 <;> simp [HState.init, h]
  · intro store r hlen
    rw [handleApiGet_eq ops io r _ hlen]
    cases h : (ops.GetEntryInfo store (List.drop uApiGet.length r.urlPath)).1.2 <;>
      simp [HState.init, h, contentTypeJSON]

/-- Witness of C7 on the store written after the specification: the requests
`GET /g?id=...` and `GET /api/v1/get/...` for an unknown identifier, for an
entry whose clicks are exhausted and for an entry expired by time get the same
response, and the store is left as it was. -/
theorem read_not_found_uniform_witness :
    (getRequest (str "nope")).urlPath = str "/g" ∧
    (apiGetRequest (str "nope")).urlPath = str "/api/v1/get/nope" ∧
    ((handleGet specOps (str "msg") (getRequest (str "nope")) (HState.init helloStore)).2.resp =
        [RespOp.writeHeader 404, RespOp.executeTemplate (str "viewErr") TemplateData.null] ∧
      (handleGet specOps (str "msg") (getRequest (str "used")) (HState.init helloStore)).2.resp =
        [RespOp.writeHeader 404, RespOp.executeTemplate (str "viewErr") TemplateData.null] ∧
      (handleGet specOps (str "msg") (getRequest (str "old")) (HState.init helloStore)).2.resp =
        [RespOp.writeHeader 404, RespOp.executeTemplate (str "viewErr") TemplateData.null]) ∧
    ((handleApiGet specOps sampleIo (apiGetRequest (str "nope"))
          (HState.init helloStore)).2.resp =
        [contentTypeJSON, RespOp.writeHeader 404, RespOp.encodeError (str "not found")] ∧
      (handleApiGet specOps sampleIo (apiGetRequest (str "used"))
          (HState.init helloStore)).2.resp =
        [contentTypeJSON, RespOp.writeHeader 404, RespOp.encodeError (str "not found")] ∧
      (handleApiGet specOps sampleIo (apiGetRequest (str "old"))
          (HState.init helloStore)).2.resp =
        [contentTypeJSON, RespOp.writeHeader 404, RespOp.encodeError (str "not found")]) ∧
    (handleGet specOps (str "msg") (getRequest (str "used")) (HState.init helloStore)).2.store =
      helloStore ∧
    (handleApiGet specOps sampleIo (apiGetRequest (str "old"))
      (HState.init helloStore)).2.store = helloStore :=
  have h := read_not_found_uniform specOps sampleIo (str "msg")
  have g1 := h.1 helloStore (getRequest (str "nope")) (by decide)
  have g2 := h.1 helloStore (getRequest (str "used")) (by decide)
  have g3 := h.1 helloStore (getRequest (str "old")) (by decide)
  have a1 := h.2.1 helloStore (apiGetRequest (str "nope")) (by decide) (by decide)
  have a2 := h.2.1 helloStore (apiGetRequest (str "used")) (by decide) (by decide)
  have a3 := h.2.1 helloStore (apiGetRequest (str "old")) (by decide) (by decide)
  ⟨by decide, by decide, ⟨g1.1, g2.1, g3.1⟩, ⟨a1.1, a2.1, a3.1⟩,
    g2.2.2.trans (by decide), a3.2.2.trans (by decide)⟩

/-- C8: on every request the handler of "/i" calls the store exactly once, with
`GetEntryInfo`, and never `Click`, and the store it leaves is the one
`GetEntryInfo` left; so whatever `GetEntryInfo` leaves unchanged (the remaining
clicks of every entry, for a `GetEntryInfo` that is a lookup) is the same after
the request as before it. On every request the handler of "/g" calls `Click`
exactly once, after the lookup, when the lookup reported found, and not at all
otherwise; so does the handler of "/api/v1/get/" on every request whose path
has the pattern of the route in front, as the router guarantees, and on any
other path it calls nothing. -/
theorem info_page_consumes_no_click (ops : StoreOps σ E I) (io : Io E) (umv : GoString) :
    (∀ (store : σ) (r : Request),
      (handleInfo ops r (HState.init store)).2.calls = [StoreCall.getEntryInfo r.queryId] ∧
      (handleInfo ops r (HState.init store)).2.store =
        (ops.GetEntryInfo store r.queryId).2) ∧
    (∀ (α : Type) (remaining : σ → α),
      (∀ st id, remaining (ops.GetEntryInfo st id).2 = remaining st) →
      ∀ (store : σ) (r : Request),
        remaining (handleInfo ops r (HState.init store)).2.store = remaining store) ∧
    (∀ (store : σ) (r : Request),
      (handleGet ops umv r (HState.init store)).2.calls =
        (if (ops.GetEntryInfo store r.queryId).1.2 = true then
          [StoreCall.getEntryInfo r.queryId, StoreCall.click r.queryId]
        else [StoreCall.getEntryInfo r.queryId]) ∧
      (handleGet ops umv r (HState.init store)).2.store =
        (if (ops.GetEntryInfo store r.queryId).1.2 = true then
          ops.Click (ops.GetEntryInfo store r.queryId).2 r.queryId r
        else (ops.GetEntryInfo store r.queryId).2)) ∧
    (∀ (store : σ) (r : Request), uApiGet.length ≤ r.urlPath.length →
      (handleApiGet ops io r (HState.init store)).2.calls =
        (if (ops.GetEntryInfo store (r.urlPath.drop uApiGet.length)).1.2 = true then
          [StoreCall.getEntryInfo (r.urlPath.drop uApiGet.length),
            StoreCall.click (r.urlPath.drop uApiGet.length)]
        else [StoreCall.getEntryInfo (r.urlPath.drop uApiGet.length)]) ∧
      (handleApiGet ops io r (HState.init store)).2.store =
        (if (ops.GetEntryInfo store (r.urlPath.drop uApiGet.length)).1.2 = true then
          ops.Click (ops.GetEntryInfo store (r.urlPath.drop uApiGet.length)).2
            (r.urlPath.drop uApiGet.length) r
        else (ops.GetEntryInfo store (r.urlPath.drop uApiGet.length)).2)) ∧
    (∀ (store : σ) (r : Request), r.urlPath.length < uApiGet.length →
      (handleApiGet ops io r (HState.init store)).2.calls = [] ∧
      (handleApiGet ops io r (HState.init store)).2.store = store) := by
  refine ⟨?_, ?_, ?_, ?_, ?_⟩
  · intro store r
    rw [handleInfo_eq]
    cases h : (ops.GetEntryInfo store r.queryId).1.2 <;> simp [HState.init, h]
  · intro α remaining hframe store r
    rw [handleInfo_eq]
    cases h : (ops.GetEntryInfo store r.queryId).1.2 <;> simp [HState.init, h, hframe]
  · intro store r
    rw [handleGet_eq]
    cases h : (ops.GetEntryInfo store r.queryId).1.2 <;> simp [HState.init, h]
  · intro store r hlen
    rw [handleApiGet_eq ops io r _ hlen]
    cases h : (ops.GetEntryInfo store (List.drop uApiGet.length r.urlPath)).1.2 <;>
      simp [HState.init, h]
  · intro store r hlen
    rw [handleApiGet_short ops io r _ hlen]
    simp [HState.init]

/-- Witness of C8 on the store written after the specification: the request
`GET /i?id=X` makes the one call `GetEntryInfo` and leaves the remaining clicks
of the entry "X" at 1 and the store as it was; the requests `GET /g?id=X` and
`GET /api/v1/get/X` call `GetEntryInfo` and then `Click` once and take the
remaining clicks to 0. -/
theorem info_page_consumes_no_click_witness :
    (infoRequest (str "X")).urlPath = str "/i" ∧
    SpecStore.remaining helloStore (str "X") = 1 ∧
    (handleInfo specOps (infoRequest (str "X")) (HState.init helloStore)).2.calls =
      [StoreCall.getEntryInfo (str "X")] ∧
    (handleInfo specOps (infoRequest (str "X")) (HState.init helloStore)).2.store =
      helloStore ∧
    SpecStore.remaining
      (handleInfo specOps (infoRequest (str "X")) (HState.init helloStore)).2.store
      (str "X") = 1 ∧
    (handleGet specOps (str "msg") (getRequest (str "X")) (HState.init helloStore)).2.calls =
      [StoreCall.getEntryInfo (str "X"), StoreCall.click (str "X")] ∧
    SpecStore.remaining
      (handleGet specOps (str "msg") (getRequest (str "X")) (HState.init helloStore)).2.store
      (str "X") = 0 ∧
    (handleApiGet specOps sampleIo (apiGetRequest (str "X")) (HState.init helloStore)).2.calls =
      [StoreCall.getEntryInfo (str "X"), StoreCall.click (str "X")] ∧
    SpecStore.remaining
      (handleApiGet specOps sampleIo (apiGetRequest (str "X"))
        (HState.init helloStore)).2.store
      (str "X") = 0 :=
  have h := info_page_consumes_no_click specOps sampleIo (str "msg")
  have hframe : ∀ (st : SpecStore) (id : GoString),
      SpecStore.remaining (specOps.GetEntryInfo st id).2 = SpecStore.remaining st :=
    fun st id => by
      simp only [specOps]
      cases st.peek id <;> rfl
  have hi := h.1 helloStore (infoRequest (str "X"))
  have hg := h.2.2.1 helloStore (getRequest (str "X"))
  have ha := h.2.2.2.1 helloStore (apiGetRequest (str "X")) (by decide)
  ⟨by decide, by decide, hi.1, hi.2.trans (by decide),
    (congrFun (h.2.1 _ SpecStore.remaining hframe helloStore (infoRequest (str "X")))
      (str "X")).trans (by decide),
    hg.1.trans rfl, by decide, ha.1.trans rfl, by decide⟩

/-- The store calls of `handleApiCreate` on a request whose form parses: one
`NewEntry`, with the form value "secret" as it came. -/
theorem handleApiCreate_calls (ops : StoreOps σ E I) (g : Flags) (r : Request)
    (s : HState σ E I) (form : GoString → GoString) (hform : r.form = Except.ok form) :
    (handleApiCreate ops g r s).2.calls =
      s.calls ++ [StoreCall.newEntry (form (str "secret")) 1 7 (str "anonymous") (str "")] := by
  simp only [handleApiCreate, hform, bind, H.bind, callNewEntry]
  cases getURLBase g <;> simp [goPanic, respond]

theorem oversizedSecret_length : oversizedSecret.length = maxData + 1 := by
  unfold oversizedSecret
  exact List.length_replicate _ _

/-- C6, the anonymous path: with anonymous creation allowed a handler is
registered for "/create", and on a `POST` to "/create" whose form field "secret" has
`maxData + 1 = 1048577` bytes it calls `NewEntry` with these 1048577 bytes: the
handler has no size check. -/
theorem create_passes_oversized_secret (ops : StoreOps σ E I) (g : Flags) (store : σ) :
    (createRoute ops { g with fAllowAnonymous := true }).isSome = true ∧
    (handleApiCreate ops { g with fAllowAnonymous := true }
        (createRequest oversizedSecret) (HState.init store)).2.calls =
      [StoreCall.newEntry oversizedSecret 1 7 (str "anonymous") (str "")] ∧
    oversizedSecret.length = 1048577 ∧
    maxData < oversizedSecret.length := by
  refine ⟨by simp [createRoute], ?_, ?_, ?_⟩
  · rw [handleApiCreate_calls ops _ (createRequest oversizedSecret) _
      (fun k => if k = str "secret" then oversizedSecret else []) rfl]
    simp [HState.init]
  · rw [oversizedSecret_length]
    rfl
  · rw [oversizedSecret_length]
    exact Nat.lt_succ_self _

/-- Serving one request of "/g" step by step is `handleGet`: two steps of the
only request leave the store, and the calls, response and log of the request,
as `handleGet` does, and the request has returned. -/
theorem run_single_eq_handleGet (ops : StoreOps σ E I) (umv : GoString) (store : σ)
    (r : Request) :
    (Sys.run ops umv (Sys.start store [r]) [0, 0]).store =
      (handleGet ops umv r (HState.init store)).2.store ∧
    (Sys.run ops umv (Sys.start store [r]) [0, 0]).threads.map
        (fun t => (t.calls, t.resp, t.logs)) =
      [((handleGet ops umv r (HState.init store)).2.calls,
        (handleGet ops umv r (HState.init store)).2.resp,
        (handleGet ops umv r (HState.init store)).2.logs)] ∧
    (Sys.run ops umv (Sys.start store [r]) [0, 0]).allFinished = true := by
  rw [handleGet_eq]
  cases h : (ops.GetEntryInfo store r.queryId).1.2 <;>
    simp [Sys.run, Sys.step, Sys.start, Thread.step, Thread.new, getLookup, getNotFound,
      getFound, callGetEntryInfo, callClick, respond, logPrint, HState.init, h, bind, H.bind,
      Sys.allFinished]

/-- C9 does not hold for the handler of "/g", which looks up and clicks in two
separate store calls: for two requests for an identifier that `GetEntryInfo`
reports found, with a `GetEntryInfo` that leaves the store as it is, the
interleaving in which both requests look up before either clicks ends with both
requests returned, both answered with status 200 and the entry, and none with
not found, whatever `Click` does and whatever the click budget of the entry
is. -/
theorem two_lookups_before_click (ops : StoreOps σ E I) (umv : GoString) (store : σ)
    (id : GoString) (e : I) (hfound : ops.GetEntryInfo store id = ((e, true), store)) :
    (Sys.run ops umv (Sys.start store [getRequest id, getRequest id])
      [0, 1, 0, 1]).allFinished = true ∧
    (Sys.run ops umv (Sys.start store [getRequest id, getRequest id])
      [0, 1, 0, 1]).successes = 2 ∧
    (Sys.run ops umv (Sys.start store [getRequest id, getRequest id])
      [0, 1, 0, 1]).notFounds = 0 ∧
    (Sys.run ops umv (Sys.start store [getRequest id, getRequest id])
      [0, 1, 0, 1]).threads.map (fun t => t.resp) =
      [[RespOp.writeHeader 200,
          RespOp.executeTemplate (str "view") (TemplateData.view e umv)],
        [RespOp.writeHeader 200,
          RespOp.executeTemplate (str "view") (TemplateData.view e umv)]] := by
  simp [Sys.run, Sys.step, Sys.start, Thread.step, Thread.new, getLookup, getNotFound,
    getFound, callGetEntryInfo, callClick, respond, logPrint, getRequest, hfound, bind,
    H.bind, Sys.successes, Sys.notFounds, Sys.allFinished, Thread.succeeded, Thread.notFound]

/-- Witness of C9 on the store written after the specification: the entry "X"
has `maxClicks = 1`; of two requests for it served one after the other, one
gets the secret and one gets not found; when both requests look up before
either clicks, both get the secret: 2 successes for N = 1. -/
theorem two_lookups_before_click_witness :
    helloEntry.maxClicks = 1 ∧
    helloStore.peek (str "X") = some helloEntry ∧
    ((Sys.run specOps (str "msg")
        (Sys.start helloStore [getRequest (str "X"), getRequest (str "X")])
        [0, 0, 1, 1]).successes = 1 ∧
      (Sys.run specOps (str "msg")
        (Sys.start helloStore [getRequest (str "X"), getRequest (str "X")])
        [0, 0, 1, 1]).notFounds = 1) ∧
    ((Sys.run specOps (str "msg")
        (Sys.start helloStore [getRequest (str "X"), getRequest (str "X")])
        [0, 1, 0, 1]).allFinished = true ∧
      (Sys.run specOps (str "msg")
        (Sys.start helloStore [getRequest (str "X"), getRequest (str "X")])
        [0, 1, 0, 1]).successes = 2 ∧
      (Sys.run specOps (str "msg")
        (Sys.start helloStore [getRequest (str "X"), getRequest (str "X")])
        [0, 1, 0, 1]).notFounds = 0 ∧
      (Sys.run specOps (str "msg")
        (Sys.start helloStore [getRequest (str "X"), getRequest (str "X")])
        [0, 1, 0, 1]).threads.map (fun t => t.resp) =
        [[RespOp.writeHeader 200,
            RespOp.executeTemplate (str "view") (TemplateData.view helloEntry (str "msg"))],
          [RespOp.writeHeader 200,
            RespOp.executeTemplate (str "view") (TemplateData.view helloEntry (str "msg"))]]) :=
  ⟨rfl, by decide, ⟨by decide, by decide⟩,
    two_lookups_before_click specOps (str "msg") helloStore (str "X") helloEntry rfl⟩

end HandlerProperties

end Gotili
